import Mathlib

/-
Verification of the mesh-sizing arithmetic in
`examples/levelSet/electroChem/gapFillMesh.py`.

`GapFillMesh.__init__` computes integer grid counts from caller-supplied
physical sizes (Python floats), builds a fine `Grid2D` mesh, and delegates
the composite mesh construction to the external `Gmsh2D` superclass via a
textual geometry script.  We embed that constructor shallowly:

* Python float values are modelled as exact rationals (`ℚ`);
* the Python `int()` conversion, which truncates toward zero, is `pyint`;
* the two external constructor calls are recorded as plain argument
  records (`Grid2DCall`, `Gmsh2DCall`) — the repository contains no code
  of those classes, only the calls to them;
* a second, staged embedding (`initChecked`) makes every Python division
  and every external call a fallible step in the `Except` monad, so that
  exception propagation (`ZeroDivisionError`, library errors) is explicit.
-/

/-- The Python `int()` conversion applied to a (real-valued) float truncates toward zero:
floor for non-negative arguments, ceiling for negative ones. -/
def pyint (q : ℚ) : ℤ := if 0 ≤ q then ⌊q⌋ else ⌈q⌉

/-- Truncation toward zero of a rational, expressed arithmetically: the
truncating (T-)division of the numerator by the denominator. -/
def truncTowardZero (q : ℚ) : ℤ := Int.tdiv q.num (q.den : ℤ)

/-- The two division-based notions of truncation toward zero agree. -/
theorem pyint_eq_truncTowardZero (q : ℚ) : pyint q = truncTowardZero q := by
  unfold pyint truncTowardZero
  rcases le_or_lt 0 q with h | h
  · rw [if_pos h, Rat.floor_def,
      Int.tdiv_eq_ediv (Rat.num_nonneg.2 h) (Int.natCast_nonneg _)]
  · rw [if_neg (not_le.2 h)]
    have hnum : 0 ≤ -q.num := by
      have h1 : ¬ 0 ≤ q.num := fun hc => absurd (Rat.num_nonneg.1 hc) (not_le.2 h)
      omega
    have hceil : ⌈q⌉ = -⌊-q⌋ := by rw [Int.floor_neg, neg_neg]
    rw [hceil, Rat.floor_def, Rat.neg_num, Rat.neg_den,
      ← Int.tdiv_eq_ediv hnum (Int.natCast_nonneg _), Int.neg_tdiv, neg_neg]

/-- Truncation of a non-negative rational is its floor. -/
theorem pyint_eq_floor {q : ℚ} (h : 0 ≤ q) : pyint q = ⌊q⌋ := if_pos h

/-- Truncation of a non-negative rational is non-negative. -/
theorem pyint_nonneg {q : ℚ} (h : 0 ≤ q) : 0 ≤ pyint q := by
  rw [pyint_eq_floor h]
  exact Int.floor_nonneg.2 h

/-- Communicator objects passed to mesh constructors (`serialComm`,
`parallelComm`, or any other communicator a caller might supply). -/
inductive Comm where
  | serial
  | parallel
  | other (id : ℕ)
deriving DecidableEq

/-- A gmsh version as compared by `StrictVersion` against the literal 2.7:
a major and a minor component, ordered lexicographically. -/
structure GmshVersion where
  major : ℕ
  minor : ℕ
deriving DecidableEq

/-- Lexicographic strict order on versions, as `StrictVersion` compares. -/
def GmshVersion.lt (v w : GmshVersion) : Bool :=
  v.major < w.major || (v.major == w.major && v.minor < w.minor)

/-- The keyword arguments of `GapFillMesh.__init__` other than the
communicator, in the order of the Python signature. -/
structure Params where
  cellSize : ℚ
  desiredDomainWidth : ℚ
  desiredDomainHeight : ℚ
  desiredFineRegionHeight : ℚ
  transitionRegionHeight : ℚ
deriving DecidableEq

namespace GapFillMesh

/-- Line 141: `nx = int(desiredDomainWidth / cellSize)`. -/
def nx (p : Params) : ℤ := pyint (p.desiredDomainWidth / p.cellSize)

/-- Line 142: `ny = int(desiredFineRegionHeight / cellSize)`. -/
def ny (p : Params) : ℤ := pyint (p.desiredFineRegionHeight / p.cellSize)

/-- Line 145: `actualFineRegionHeight = ny * cellSize`. -/
def actualFineRegionHeight (p : Params) : ℚ := (ny p : ℚ) * p.cellSize

/-- Line 146: `actualDomainWidth = nx * cellSize`. -/
def actualDomainWidth (p : Params) : ℚ := (nx p : ℚ) * p.cellSize

/-- Line 147: `boundaryLayerHeight = desiredDomainHeight - actualFineRegionHeight - transitionRegionHeight`. -/
def boundaryLayerHeight (p : Params) : ℚ :=
  p.desiredDomainHeight - actualFineRegionHeight p - p.transitionRegionHeight

/-- Line 148: `numberOfBoundaryLayerCells = int(boundaryLayerHeight / actualDomainWidth)`. -/
def numberOfBoundaryLayerCells (p : Params) : ℤ :=
  pyint (boundaryLayerHeight p / actualDomainWidth p)

/-- Lines 153-157: the offset subtracted from the cell size in the geometry
script, depending on the external gmsh version. -/
def eps (p : Params) (gmshVersion : GmshVersion) : ℚ :=
  if GmshVersion.lt gmshVersion ⟨2, 7⟩ then p.cellSize / ((nx p : ℚ) * 10) else 0

end GapFillMesh

/-- The arguments of the `Grid2D` constructor call on line 151. -/
structure Grid2DCall where
  nx : ℤ
  ny : ℤ
  dx : ℚ
  dy : ℚ
  communicator : Comm
deriving DecidableEq

/-- The arguments of the `Gmsh2D` superclass constructor call on lines
159-189: the numeric values substituted into the geometry script (the
script text around them is fixed) and the communicator. `scriptCellSize`
is the value the script variable `cellSize` receives, i.e. the expression
`%(cellSize)g - %(eps)g` on line 161. -/
structure Gmsh2DCall where
  ny : ℤ
  scriptCellSize : ℚ
  height : ℚ
  width : ℚ
  boundaryLayerHeight : ℚ
  transitionRegionHeight : ℚ
  numberOfBoundaryLayerCells : ℤ
  communicator : Comm
deriving DecidableEq

/-- The observable outcome of a completed `GapFillMesh.__init__`: the
`Grid2D` call stored as `self.fineMesh` and the `Gmsh2D` superclass call. -/
structure State where
  fineMesh : Grid2DCall
  superCall : Gmsh2DCall
deriving DecidableEq

namespace GapFillMesh

/-- Shallow embedding of `GapFillMesh.__init__` (lines 116-189), recording
the two external constructor calls it makes. -/
def init (p : Params) (communicator : Comm) (gmshVersion : GmshVersion) : State :=
  { fineMesh :=
      { nx := nx p
        ny := ny p
        dx := p.cellSize
        dy := p.cellSize
        communicator := Comm.serial }
    superCall :=
      { ny := ny p
        scriptCellSize := p.cellSize - eps p gmshVersion
        height := actualFineRegionHeight p
        width := actualDomainWidth p
        boundaryLayerHeight := boundaryLayerHeight p
        transitionRegionHeight := p.transitionRegionHeight
        numberOfBoundaryLayerCells := numberOfBoundaryLayerCells p
        communicator := communicator } }

end GapFillMesh

/-- Exceptions that can surface from the constructor: the Python
`ZeroDivisionError` from a division, or an exception raised by an external
library call (identified abstractly by a code). -/
inductive PyExc where
  | zeroDivisionError
  | externalError (code : ℕ)
deriving DecidableEq

/-- Python float division: raises `ZeroDivisionError` on a zero divisor. -/
def pydiv (a b : ℚ) : Except PyExc ℚ :=
  if b = 0 then Except.error PyExc.zeroDivisionError else Except.ok (a / b)

namespace GapFillMesh

/-- Staged embedding of `GapFillMesh.__init__` in which every division and
every external constructor call is a fallible step, in the statement
order of the source.  The outcomes of the two external calls (which the
repository does not implement) enter as the abstract parameters `gridRes`
and `superRes`; the constructor body contains no handler, so any error
outcome short-circuits the remaining steps. -/
def initChecked (gridRes superRes : Except PyExc Unit) (p : Params)
    (communicator : Comm) (gmshVersion : GmshVersion) : Except PyExc State := do
  let nxq ← pydiv p.desiredDomainWidth p.cellSize
  let nxv := pyint nxq
  let nyq ← pydiv p.desiredFineRegionHeight p.cellSize
  let nyv := pyint nyq
  let afrh := (nyv : ℚ) * p.cellSize
  let adw := (nxv : ℚ) * p.cellSize
  let blh := p.desiredDomainHeight - afrh - p.transitionRegionHeight
  let nblq ← pydiv blh adw
  let nbl := pyint nblq
  let _ ← gridRes
  let epsv ← if GmshVersion.lt gmshVersion ⟨2, 7⟩ then pydiv p.cellSize ((nxv : ℚ) * 10)
             else Except.ok 0
  let _ ← superRes
  Except.ok
    { fineMesh :=
        { nx := nxv
          ny := nyv
          dx := p.cellSize
          dy := p.cellSize
          communicator := Comm.serial }
      superCall :=
        { ny := nyv
          scriptCellSize := p.cellSize - epsv
          height := afrh
          width := adw
          boundaryLayerHeight := blh
          transitionRegionHeight := p.transitionRegionHeight
          numberOfBoundaryLayerCells := nbl
          communicator := communicator } }

end GapFillMesh

/-- The sizing parameters of the doctest on lines 73-78: cellSize 0.1,
domain width 1, domain height 5, fine region height 1, transition region
height 2. -/
def doctestParams : Params :=
  { cellSize := 1 / 10
    desiredDomainWidth := 1
    desiredDomainHeight := 5
    desiredFineRegionHeight := 1
    transitionRegionHeight := 2 }

/-- Scaling the truncated quotient of two non-negative quantities back up
never exceeds the numerator, with equality exactly on exact multiples. -/
theorem pyint_scaled_le {d c : ℚ} (hc : 0 < c) (hd : 0 ≤ d) :
    (pyint (d / c) : ℚ) * c ≤ d ∧
    ((pyint (d / c) : ℚ) * c = d ↔ ∃ k : ℤ, d = (k : ℚ) * c) := by
  rw [pyint_eq_floor (div_nonneg hd hc.le)]
  constructor
  · have h1 : (⌊d / c⌋ : ℚ) * c ≤ d / c * c :=
      mul_le_mul_of_nonneg_right (Int.floor_le _) hc.le
    rwa [div_mul_cancel₀ d hc.ne'] at h1
  · constructor
    · intro he
      exact ⟨⌊d / c⌋, he.symm⟩
    · rintro ⟨k, rfl⟩
      rw [mul_div_cancel_right₀ _ hc.ne', Int.floor_intCast]

/-- C1: for every call with `cellSize > 0`, the derived integer grid counts
are plain truncations: `nx` truncates `desiredDomainWidth / cellSize`, `ny`
truncates `desiredFineRegionHeight / cellSize`, and
`numberOfBoundaryLayerCells` truncates
`(desiredDomainHeight - ny*cellSize - transitionRegionHeight) / (nx*cellSize)`,
each toward zero. -/
theorem C1_counts_are_truncated_quotients (p : Params) (h : 0 < p.cellSize) :
    GapFillMesh.nx p = truncTowardZero (p.desiredDomainWidth / p.cellSize) ∧
    GapFillMesh.ny p = truncTowardZero (p.desiredFineRegionHeight / p.cellSize) ∧
    GapFillMesh.numberOfBoundaryLayerCells p =
      truncTowardZero
        ((p.desiredDomainHeight - (GapFillMesh.ny p : ℚ) * p.cellSize -
            p.transitionRegionHeight) / ((GapFillMesh.nx p : ℚ) * p.cellSize)) :=
  ⟨pyint_eq_truncTowardZero _, pyint_eq_truncTowardZero _, pyint_eq_truncTowardZero _⟩

/-- Witness for C1 at the doctest sizing parameters. -/
theorem C1_counts_are_truncated_quotients_w :
    GapFillMesh.nx doctestParams =
        truncTowardZero (doctestParams.desiredDomainWidth / doctestParams.cellSize) ∧
    GapFillMesh.ny doctestParams =
        truncTowardZero (doctestParams.desiredFineRegionHeight / doctestParams.cellSize) ∧
    GapFillMesh.numberOfBoundaryLayerCells doctestParams =
      truncTowardZero
        ((doctestParams.desiredDomainHeight -
            (GapFillMesh.ny doctestParams : ℚ) * doctestParams.cellSize -
            doctestParams.transitionRegionHeight) /
          ((GapFillMesh.nx doctestParams : ℚ) * doctestParams.cellSize)) :=
  C1_counts_are_truncated_quotients doctestParams (by norm_num [doctestParams])

/-- C2 as stated is false: with every sizing input positive (all equal to
1), the boundary layer height is 1 - 1 - 1 = -1, so
`numberOfBoundaryLayerCells = int(-1 / 1) = -1` is negative. -/
theorem C2_counterexample :
    (0 < (⟨1, 1, 1, 1, 1⟩ : Params).cellSize ∧
      0 < (⟨1, 1, 1, 1, 1⟩ : Params).desiredDomainWidth ∧
      0 < (⟨1, 1, 1, 1, 1⟩ : Params).desiredDomainHeight ∧
      0 < (⟨1, 1, 1, 1, 1⟩ : Params).desiredFineRegionHeight ∧
      0 < (⟨1, 1, 1, 1, 1⟩ : Params).transitionRegionHeight) ∧
    GapFillMesh.numberOfBoundaryLayerCells ⟨1, 1, 1, 1, 1⟩ < 0 := by
  refine ⟨⟨by norm_num, by norm_num, by norm_num, by norm_num, by norm_num⟩, ?_⟩
  norm_num [GapFillMesh.numberOfBoundaryLayerCells, GapFillMesh.boundaryLayerHeight,
    GapFillMesh.actualFineRegionHeight, GapFillMesh.actualDomainWidth,
    GapFillMesh.nx, GapFillMesh.ny, pyint, Int.ceil_neg]

/-- C2 amended: with positive sizing inputs, `nx` and `ny` are always
non-negative, and `numberOfBoundaryLayerCells` is non-negative provided the
boundary layer height `desiredDomainHeight - ny*cellSize -
transitionRegionHeight` is non-negative (the desired domain is tall enough
to hold the fine and transition regions). -/
theorem C2_amended_counts_nonneg (p : Params) (hcs : 0 < p.cellSize)
    (hw : 0 < p.desiredDomainWidth) (hh : 0 < p.desiredDomainHeight)
    (hf : 0 < p.desiredFineRegionHeight) (ht : 0 < p.transitionRegionHeight) :
    0 ≤ GapFillMesh.nx p ∧ 0 ≤ GapFillMesh.ny p ∧
    (0 ≤ GapFillMesh.boundaryLayerHeight p →
      0 ≤ GapFillMesh.numberOfBoundaryLayerCells p) := by
  have hnx : 0 ≤ GapFillMesh.nx p := pyint_nonneg (div_nonneg hw.le hcs.le)
  refine ⟨hnx, pyint_nonneg (div_nonneg hf.le hcs.le), fun hb => ?_⟩
  have hadw : 0 ≤ GapFillMesh.actualDomainWidth p :=
    mul_nonneg (by exact_mod_cast hnx) hcs.le
  exact pyint_nonneg (div_nonneg hb hadw)

/-- Witness for the amended C2 at the doctest sizing parameters, where the
boundary layer height is 5 - 1 - 2 = 2 and all three counts come out
non-negative. -/
theorem C2_amended_counts_nonneg_w :
    0 ≤ GapFillMesh.nx doctestParams ∧ 0 ≤ GapFillMesh.ny doctestParams ∧
    0 ≤ GapFillMesh.numberOfBoundaryLayerCells doctestParams := by
  have h := C2_amended_counts_nonneg doctestParams (by norm_num [doctestParams])
    (by norm_num [doctestParams]) (by norm_num [doctestParams])
    (by norm_num [doctestParams]) (by norm_num [doctestParams])
  exact ⟨h.1, h.2.1, h.2.2 (by norm_num [doctestParams, GapFillMesh.boundaryLayerHeight,
    GapFillMesh.actualFineRegionHeight, GapFillMesh.ny, pyint])⟩

/-- C9 as stated is false: with `cellSize = 2 > 0` but a negative desired
width `-1`, truncation toward zero rounds `-1/2` up to `nx = 0`, so the
actual width `0` exceeds the desired width `-1`. -/
theorem C9_counterexample :
    0 < (⟨2, -1, 1, 1, 1⟩ : Params).cellSize ∧
    ¬ GapFillMesh.actualDomainWidth ⟨2, -1, 1, 1, 1⟩ ≤
        (⟨2, -1, 1, 1, 1⟩ : Params).desiredDomainWidth := by
  refine ⟨by norm_num, ?_⟩
  norm_num [GapFillMesh.actualDomainWidth, GapFillMesh.nx, pyint, Int.ceil_neg]

/-- C9 amended: when `cellSize > 0` and the desired width and fine-region
height are additionally non-negative, the actual dimensions never exceed
the desired ones, with equality exactly when `cellSize` evenly divides the
corresponding desired dimension. -/
theorem C9_amended_actual_le_desired (p : Params) (hcs : 0 < p.cellSize)
    (hw : 0 ≤ p.desiredDomainWidth) (hf : 0 ≤ p.desiredFineRegionHeight) :
    GapFillMesh.actualDomainWidth p ≤ p.desiredDomainWidth ∧
    GapFillMesh.actualFineRegionHeight p ≤ p.desiredFineRegionHeight ∧
    (GapFillMesh.actualDomainWidth p = p.desiredDomainWidth ↔
      ∃ k : ℤ, p.desiredDomainWidth = (k : ℚ) * p.cellSize) ∧
    (GapFillMesh.actualFineRegionHeight p = p.desiredFineRegionHeight ↔
      ∃ k : ℤ, p.desiredFineRegionHeight = (k : ℚ) * p.cellSize) := by
  obtain ⟨h1, h2⟩ := pyint_scaled_le hcs hw
  obtain ⟨h3, h4⟩ := pyint_scaled_le hcs hf
  exact ⟨h1, h3, h2, h4⟩

/-- Witness for the amended C9 at the doctest sizing parameters. -/
theorem C9_amended_actual_le_desired_w :
    GapFillMesh.actualDomainWidth doctestParams ≤ doctestParams.desiredDomainWidth ∧
    GapFillMesh.actualFineRegionHeight doctestParams ≤ doctestParams.desiredFineRegionHeight ∧
    (GapFillMesh.actualDomainWidth doctestParams = doctestParams.desiredDomainWidth ↔
      ∃ k : ℤ, doctestParams.desiredDomainWidth = (k : ℚ) * doctestParams.cellSize) ∧
    (GapFillMesh.actualFineRegionHeight doctestParams = doctestParams.desiredFineRegionHeight ↔
      ∃ k : ℤ, doctestParams.desiredFineRegionHeight = (k : ℚ) * doctestParams.cellSize) :=
  C9_amended_actual_le_desired doctestParams (by norm_num [doctestParams])
    (by norm_num [doctestParams]) (by norm_num [doctestParams])

/-- C5: the communicator argument is forwarded unmodified to the `Gmsh2D`
superclass call, and nothing else the constructor computes depends on it:
overwriting the communicator field of the superclass call of one run
with another communicator yields exactly the superclass call of the
other run, and
the fine mesh call is identical across communicators. -/
theorem C5_communicator_pass_through (p : Params) (c c' : Comm) (v : GmshVersion) :
    (GapFillMesh.init p c v).superCall.communicator = c ∧
    (GapFillMesh.init p c v).fineMesh = (GapFillMesh.init p c' v).fineMesh ∧
    { (GapFillMesh.init p c v).superCall with communicator := c' } =
      (GapFillMesh.init p c' v).superCall :=
  ⟨rfl, rfl, rfl⟩

/-- C8: for any two constructor runs differing only in the communicator,
the fine region mesh is built identically: always a `Grid2D` with `nx`
columns, `ny` rows, square cells of size `cellSize`, and the serial
communicator, regardless of the communicator passed. -/
theorem C8_fineMesh_ignores_communicator (p : Params) (c c' : Comm) (v : GmshVersion) :
    (GapFillMesh.init p c v).fineMesh = (GapFillMesh.init p c' v).fineMesh ∧
    (GapFillMesh.init p c v).fineMesh =
      { nx := GapFillMesh.nx p
        ny := GapFillMesh.ny p
        dx := p.cellSize
        dy := p.cellSize
        communicator := Comm.serial } :=
  ⟨rfl, rfl⟩

/-- C10: the cell size written into the geometry script is
`cellSize - cellSize/(nx*10)` when the gmsh version is below 2.7, and
`cellSize` unmodified (`eps = 0`) otherwise. -/
theorem C10_script_cell_size_by_gmsh_version (p : Params) (c : Comm) (v : GmshVersion) :
    (GapFillMesh.init p c v).superCall.scriptCellSize =
      if GmshVersion.lt v ⟨2, 7⟩ then
        p.cellSize - p.cellSize / ((GapFillMesh.nx p : ℚ) * 10)
      else p.cellSize := by
  show p.cellSize - GapFillMesh.eps p v = _
  unfold GapFillMesh.eps
  split
  · rfl
  · rw [sub_zero]

/-- Consistency of the two embeddings: when no division degenerates and
both external calls succeed, the staged constructor produces exactly the
state of the pure embedding. -/
theorem initChecked_agrees_with_init (p : Params) (c : Comm) (v : GmshVersion)
    (hcs : p.cellSize ≠ 0) (hadw : GapFillMesh.actualDomainWidth p ≠ 0) :
    GapFillMesh.initChecked (Except.ok ()) (Except.ok ()) p c v =
      Except.ok (GapFillMesh.init p c v) := by
  have hnx : (pyint (p.desiredDomainWidth / p.cellSize) : ℚ) ≠ 0 := by
    simp only [GapFillMesh.actualDomainWidth, GapFillMesh.nx] at hadw
    exact left_ne_zero_of_mul hadw
  have hnxq : ((pyint (p.desiredDomainWidth / p.cellSize) : ℚ) * 10) ≠ 0 :=
    mul_ne_zero hnx (by norm_num)
  simp only [GapFillMesh.actualDomainWidth, GapFillMesh.nx] at hadw
  cases hv : GmshVersion.lt v ⟨2, 7⟩ <;>
    simp [GapFillMesh.initChecked, GapFillMesh.init, GapFillMesh.nx, GapFillMesh.ny,
      GapFillMesh.actualFineRegionHeight, GapFillMesh.actualDomainWidth,
      GapFillMesh.boundaryLayerHeight, GapFillMesh.numberOfBoundaryLayerCells,
      GapFillMesh.eps, pydiv, hcs, hadw, hnxq, hv, Bind.bind, Except.bind]

/-- C4: the constructor has no handler: a zero divisor in the `nx` division
or in the boundary-layer division surfaces as `ZeroDivisionError`, and an
exception raised by either external constructor call is returned unmodified
as the outcome of `__init__`; in each case no state is produced. -/
theorem C4_exceptions_propagate (gridRes superRes : Except PyExc Unit) (p : Params)
    (c : Comm) (v : GmshVersion) (e : PyExc) :
    (p.cellSize = 0 →
      GapFillMesh.initChecked gridRes superRes p c v =
        Except.error PyExc.zeroDivisionError) ∧
    (p.cellSize ≠ 0 → GapFillMesh.actualDomainWidth p = 0 →
      GapFillMesh.initChecked gridRes superRes p c v =
        Except.error PyExc.zeroDivisionError) ∧
    (p.cellSize ≠ 0 → GapFillMesh.actualDomainWidth p ≠ 0 → gridRes = Except.error e →
      GapFillMesh.initChecked gridRes superRes p c v = Except.error e) ∧
    (p.cellSize ≠ 0 → GapFillMesh.actualDomainWidth p ≠ 0 → gridRes = Except.ok () →
      superRes = Except.error e →
      GapFillMesh.initChecked gridRes superRes p c v = Except.error e) := by
  refine ⟨?_, ?_, ?_, ?_⟩
  · intro h0
    simp [GapFillMesh.initChecked, pydiv, h0, Bind.bind, Except.bind]
  · intro hcs hadw
    simp only [GapFillMesh.actualDomainWidth, GapFillMesh.nx] at hadw
    simp [GapFillMesh.initChecked, pydiv, hcs, hadw, Bind.bind, Except.bind]
  · intro hcs hadw hg
    simp only [GapFillMesh.actualDomainWidth, GapFillMesh.nx] at hadw
    simp [GapFillMesh.initChecked, pydiv, hcs, hadw, hg, Bind.bind, Except.bind]
  · intro hcs hadw hg hs
    have hnx : (pyint (p.desiredDomainWidth / p.cellSize) : ℚ) ≠ 0 := by
      simp only [GapFillMesh.actualDomainWidth, GapFillMesh.nx] at hadw
      exact left_ne_zero_of_mul hadw
    have hnxq : ((pyint (p.desiredDomainWidth / p.cellSize) : ℚ) * 10) ≠ 0 :=
      mul_ne_zero hnx (by norm_num)
    simp only [GapFillMesh.actualDomainWidth, GapFillMesh.nx] at hadw
    cases hv : GmshVersion.lt v ⟨2, 7⟩ <;>
      simp [GapFillMesh.initChecked, pydiv, hcs, hadw, hg, hs, hnxq, hv,
        Bind.bind, Except.bind]

/-- Witness for C4: with the doctest sizing parameters, a failing `Gmsh2D`
superclass call surfaces its error unmodified, and a zero cell size
surfaces `ZeroDivisionError`. -/
theorem C4_exceptions_propagate_w :
    GapFillMesh.initChecked (Except.ok ()) (Except.error (PyExc.externalError 3))
        doctestParams Comm.parallel ⟨2, 16⟩ =
      Except.error (PyExc.externalError 3) ∧
    GapFillMesh.initChecked (Except.ok ()) (Except.ok ())
        { doctestParams with cellSize := 0 } Comm.parallel ⟨2, 16⟩ =
      Except.error PyExc.zeroDivisionError :=
  ⟨(C4_exceptions_propagate (Except.ok ()) (Except.error (PyExc.externalError 3))
      doctestParams Comm.parallel ⟨2, 16⟩ (PyExc.externalError 3)).2.2.2
      (by norm_num [doctestParams])
      (by norm_num [doctestParams, GapFillMesh.actualDomainWidth, GapFillMesh.nx, pyint])
      rfl rfl,
    (C4_exceptions_propagate (Except.ok ()) (Except.ok ())
      { doctestParams with cellSize := 0 } Comm.parallel ⟨2, 16⟩
      PyExc.zeroDivisionError).1 rfl⟩
